import Mathlib

/-!
# Verification of the youtube-channels collection pipeline

A shallow embedding of the core of the `youtube-channels` repository:

* `src/core/output.py` — `OutputManager.append` / `OutputManager.load_existing`,
  the file-backed deduplicating key store.  A file on disk is modelled as
  `Option (List String)`: `none` when the file does not exist, `some lines`
  when it exists with the given lines (one line per written item; keys are
  assumed newline-free, as the persisted-key-file format requires).
* `src/extractors/channel.py` — `ChannelExtractor.extract` /
  `ChannelExtractor._extract_channel_data`, the record extraction and
  URL normalization stage.  A DOM result element is modelled by the string
  values the `safe_get_*` helpers produce for it.
* `src/batch.py` — `BatchRunner._scrape_keyword` / `BatchRunner.run`, the
  orchestrator, modelled over the stream of task results in completion order.
* `src/config_loader.py` and `src/scrapers/youtube.py` — configuration
  loading and extractor-class selection, as fallible `Except` functions.
-/

namespace YoutubeChannels

/-! ### Python string primitives

`str.strip()` and `str.startswith` are embedded character-wise over
`String.data` so that they evaluate by kernel reduction. -/

/-- Drop leading and trailing whitespace from a character list. -/
def stripChars (l : List Char) : List Char :=
  ((l.dropWhile Char.isWhitespace).reverse.dropWhile Char.isWhitespace).reverse

/-- Embedding of Python `str.strip()` (no-argument form). -/
def pyStrip (s : String) : String := ⟨stripChars s.data⟩

/-- `startsWithChars l p` is true when `p` is an initial segment of `l`. -/
def startsWithChars : List Char → List Char → Bool
  | _, [] => true
  | [], _ :: _ => false
  | c :: cs, d :: ds => c = d && startsWithChars cs ds

/-- Embedding of Python `s.startswith(p)`. -/
def pyStartsWith (s p : String) : Bool := startsWithChars s.data p.data

namespace OutputManager

/-- The per-line read rule shared by `load_existing` and the read loop at the
top of `append` (src/core/output.py lines 112-116 and 151-155):
`value = line.strip(); if value and value != column_name: existing.add(value)`.
Returns the key a line contributes, or `none` when the line is skipped
(blank after stripping, or equal to the header token). -/
def lineKey (column_name line : String) : Option String :=
  let value := pyStrip line
  if value ≠ "" ∧ value ≠ column_name then some value else none

/-- `OutputManager.load_existing` (src/core/output.py lines 137-158): the keys
read from the file, a missing file yielding the empty set.  The Python code
returns a `set`; the list returned here is read up to membership /
`toFinset`. -/
def load_existing (file : Option (List String)) (column_name : String) :
    List String :=
  match file with
  | none => []
  | some lines => lines.filterMap (lineKey column_name)

/-- Result of one `append` call: the file contents afterwards and the
returned count of items actually appended. -/
structure AppendResult where
  file : Option (List String)
  count : Nat
deriving DecidableEq

/-- `OutputManager.append` (src/core/output.py lines 89-135).  Under the
store lock it re-reads the on-disk set, filters the candidates against it
when `deduplicate` is set (each candidate compared, unstripped, against the
stripped on-disk values), returns `0` leaving the file untouched when
nothing is new, and otherwise appends a header line (only when the file is
being created) followed by one line per new item, returning how many items
were appended. -/
def append (data : List String) (file : Option (List String))
    (column_name : String) (deduplicate : Bool) : AppendResult :=
  let existing := load_existing file column_name
  let new_items :=
    if deduplicate then data.filter (fun item => decide (item ∉ existing))
    else data
  if new_items.isEmpty then ⟨file, 0⟩
  else
    let write_header : List String :=
      match file with
      | none => [column_name]
      | some _ => []
    ⟨some ((file.getD []) ++ write_header ++ new_items), new_items.length⟩

/-- A well-formed key for a store using header token `column_name`: it
survives the read-back rule unchanged (strip-invariant, non-empty, and
distinct from the header token). -/
def goodKey (column_name k : String) : Prop :=
  pyStrip k = k ∧ k ≠ "" ∧ k ≠ column_name

instance (column_name k : String) : Decidable (goodKey column_name k) := by
  unfold goodKey
  infer_instance

theorem lineKey_of_goodKey {col k : String} (h : goodKey col k) :
    lineKey col k = some k := by
  rcases h with ⟨h1, h2, h3⟩
  simp only [lineKey, h1]
  rw [if_pos ⟨h2, h3⟩]

theorem lineKey_header {col : String} (hcol : pyStrip col = col) :
    lineKey col col = none := by
  simp [lineKey, hcol]

theorem filterMap_lineKey_good {col : String} {l : List String}
    (h : ∀ k ∈ l, goodKey col k) : l.filterMap (lineKey col) = l := by
  induction l with
  | nil => rfl
  | cons x xs ih =>
      rw [List.filterMap_cons, lineKey_of_goodKey (h x (List.mem_cons_self x xs))]
      rw [ih (fun k hk => h k (List.mem_cons_of_mem x hk))]

theorem load_existing_append_lines (col : String) (a b : List String) :
    load_existing (some (a ++ b)) col
      = load_existing (some a) col ++ load_existing (some b) col := by
  simp [load_existing, List.filterMap_append]

/-- The filtered candidate list of a deduplicating `append`. -/
def newItems (data : List String) (file : Option (List String))
    (col : String) : List String :=
  data.filter (fun item => decide (item ∉ load_existing file col))

/-- `append` returns the length of the filtered candidate list. -/
theorem append_count (data : List String) (file : Option (List String))
    (col : String) :
    (append data file col true).count = (newItems data file col).length := by
  unfold append newItems
  simp only [if_true]
  split
  · rename_i h
    rw [List.isEmpty_iff] at h
    rw [h]
    rfl
  · rfl

/-- When nothing survives the dedup filter, `append` leaves the file as it
was. -/
theorem append_file_of_nil (data : List String) (file : Option (List String))
    (col : String) (h : newItems data file col = []) :
    (append data file col true).file = file := by
  unfold append
  simp only [if_true]
  unfold newItems at h
  rw [if_pos (by rw [List.isEmpty_iff]; exact h)]

/-- Creating `append`: on a missing file, a surviving candidate list is
written under a fresh header line. -/
theorem append_file_none (data : List String) (col : String)
    (h : newItems data none col ≠ []) :
    (append data none col true).file = some (col :: newItems data none col) := by
  unfold append
  simp only [if_true]
  unfold newItems at h ⊢
  rw [if_neg (by rw [List.isEmpty_iff]; exact h)]
  rfl

/-- Extending `append`: on an existing file, the surviving candidates are
appended after the current lines, with no new header. -/
theorem append_file_some (data : List String) (l : List String) (col : String)
    (h : newItems data (some l) col ≠ []) :
    (append data (some l) col true).file
      = some (l ++ newItems data (some l) col) := by
  unfold append
  simp only [if_true]
  unfold newItems at h ⊢
  rw [if_neg (by rw [List.isEmpty_iff]; exact h)]
  show some ((l ++ []) ++ _) = _
  rw [List.append_nil]

/-- The keys readable from the store after an `append` of well-formed keys
are exactly the old keys together with the appended data. -/
theorem mem_load_existing_append (col : String) (hcol : pyStrip col = col)
    {data : List String} (hdata : ∀ k ∈ data, goodKey col k)
    (file : Option (List String)) (x : String) :
    x ∈ load_existing (append data file col true).file col ↔
      x ∈ load_existing file col ∨ x ∈ data := by
  have hgoodNew : ∀ k ∈ newItems data file col, goodKey col k :=
    fun k hk => hdata k (List.mem_of_mem_filter hk)
  by_cases hemp : newItems data file col = []
  · rw [append_file_of_nil data file col hemp]
    unfold newItems at hemp
    rw [List.filter_eq_nil_iff] at hemp
    constructor
    · exact Or.inl
    · rintro (hx | hx)
      · exact hx
      · have := hemp x hx
        simp only [decide_eq_true_eq, not_not] at this
        exact this
  · have hmemNew : ∀ y, y ∈ newItems data file col ↔
        (y ∈ data ∧ y ∉ load_existing file col) := by
      intro y
      unfold newItems
      rw [List.mem_filter]
      simp
    cases file with
    | none =>
        rw [append_file_none data col hemp]
        show x ∈ List.filterMap (lineKey col) (col :: newItems data none col) ↔ _
        rw [List.filterMap_cons, lineKey_header hcol,
          filterMap_lineKey_good hgoodNew]
        rw [hmemNew x]
        simp [load_existing]
    | some l =>
        rw [append_file_some data l col hemp]
        show x ∈ List.filterMap (lineKey col) (l ++ newItems data (some l) col) ↔ _
        rw [List.filterMap_append, filterMap_lineKey_good hgoodNew,
          List.mem_append]
        rw [hmemNew x]
        show x ∈ load_existing (some l) col ∨ _ ↔ _
        constructor
        · rintro (hx | ⟨hx, _⟩)
          · exact Or.inl hx
          · exact Or.inr hx
        · rintro (hx | hx)
          · exact Or.inl hx
          · by_cases hmem : x ∈ load_existing (some l) col
            · exact Or.inl hmem
            · exact Or.inr ⟨hx, hmem⟩

/-! ### Claims about the deduplicating store -/

/-- C9: every `append` call only ever adds lines to the persisted key file:
the old lines are an initial segment of the new lines (no previously written
line is removed or rewritten), and the set of keys on disk afterwards is a
superset of the set present before the call. -/
theorem append_only_shape (items : List String) (file : Option (List String))
    (col : String) :
    (∃ tail,
        ((if items.isEmpty then (⟨file, 0⟩ : AppendResult)
            else ⟨some ((file.getD [])
                ++ (match file with | none => [col] | some _ => []) ++ items),
              items.length⟩).file).getD [] = (file.getD []) ++ tail)
      ∧ ∀ x ∈ load_existing file col,
          x ∈ load_existing
            (if items.isEmpty then (⟨file, 0⟩ : AppendResult)
              else ⟨some ((file.getD [])
                  ++ (match file with | none => [col] | some _ => []) ++ items),
                items.length⟩).file col := by
  by_cases h : items.isEmpty
  · simp only [if_pos h]
    exact ⟨⟨[], (List.append_nil _).symm⟩, fun x hx => hx⟩
  · simp only [if_neg h]
    constructor
    · cases file with
      | none => exact ⟨_, rfl⟩
      | some l =>
          refine ⟨items, ?_⟩
          show (l ++ []) ++ items = l ++ items
          rw [List.append_nil]
    · intro x hx
      cases file with
      | none => exact absurd hx (List.not_mem_nil x)
      | some l =>
          show x ∈ List.filterMap (lineKey col) ((l ++ []) ++ items)
          rw [List.append_nil, List.filterMap_append]
          exact List.mem_append_left _ hx

theorem append_append_only (data : List String) (file : Option (List String))
    (col : String) (dedup : Bool) :
    (∃ tail, ((append data file col dedup).file).getD [] = (file.getD []) ++ tail)
      ∧ ∀ x ∈ load_existing file col,
          x ∈ load_existing (append data file col dedup).file col := by
  cases dedup with
  | false => exact append_only_shape data file col
  | true =>
      exact append_only_shape
        (data.filter (fun item => decide (item ∉ load_existing file col)))
        file col

/-- Closed instance of `append_append_only`: a key on disk before an append
is still on disk afterwards. -/
theorem append_append_only_witness :
    "e" ∈ load_existing (some ["c", "e"]) "c"
      ∧ "e" ∈ load_existing (append ["k"] (some ["c", "e"]) "c" true).file "c" :=
  ⟨by decide,
    (append_append_only ["k"] (some ["c", "e"]) "c" true).2 "e" (by decide)⟩

/-- C1 (amended): for well-formed keys — strip-invariant, non-empty, distinct
from the (strip-invariant) header token — appending `K1` then `K2` leaves on
disk exactly `existing ∪ K1 ∪ K2`, and the second call returns
`|K2 \ (K1 ∪ existing)|`. -/
theorem dedup_correctness (col : String) (hcol : pyStrip col = col)
    (K1 K2 : List String) (file : Option (List String))
    (hK1 : ∀ k ∈ K1, goodKey col k) (hK2 : ∀ k ∈ K2, goodKey col k)
    (hN2 : K2.Nodup) :
    (load_existing (append K2 (append K1 file col true).file col true).file
          col).toFinset
        = (load_existing file col).toFinset ∪ K1.toFinset ∪ K2.toFinset
      ∧ (append K2 (append K1 file col true).file col true).count
        = (K2.toFinset
            \ (K1.toFinset ∪ (load_existing file col).toFinset)).card := by
  constructor
  · ext x
    simp only [List.mem_toFinset, Finset.mem_union]
    rw [mem_load_existing_append col hcol hK2,
      mem_load_existing_append col hcol hK1]
  · rw [append_count]
    have hnodup : (newItems K2 (append K1 file col true).file col).Nodup :=
      hN2.filter _
    rw [← List.toFinset_card_of_nodup hnodup]
    have hset : (newItems K2 (append K1 file col true).file col).toFinset
        = K2.toFinset \ (K1.toFinset ∪ (load_existing file col).toFinset) := by
      ext y
      unfold newItems
      simp only [List.mem_toFinset, Finset.mem_sdiff, Finset.mem_union,
        List.mem_filter, decide_eq_true_eq]
      rw [mem_load_existing_append col hcol hK1]
      tauto
    rw [hset]

/-- Closed instance of `dedup_correctness` at `existing = {e}`, `K1 = [k1]`,
`K2 = [k1, k2]`. -/
theorem dedup_correctness_witness :
    ((pyStrip "c" = "c") ∧ (∀ k ∈ ["k1"], goodKey "c" k)
        ∧ (∀ k ∈ ["k1", "k2"], goodKey "c" k) ∧ (["k1", "k2"] : List String).Nodup)
      ∧ (load_existing (append ["k1", "k2"]
            (append ["k1"] (some ["c", "e"]) "c" true).file "c" true).file
            "c").toFinset
          = (load_existing (some ["c", "e"]) "c").toFinset
              ∪ (["k1"] : List String).toFinset
              ∪ (["k1", "k2"] : List String).toFinset
      ∧ (append ["k1", "k2"]
            (append ["k1"] (some ["c", "e"]) "c" true).file "c" true).count
          = ((["k1", "k2"] : List String).toFinset
              \ ((["k1"] : List String).toFinset
                  ∪ (load_existing (some ["c", "e"]) "c").toFinset)).card :=
  ⟨⟨by decide, by decide, by decide, by decide⟩,
    dedup_correctness "c" (by decide) ["k1"] ["k1", "k2"] (some ["c", "e"])
      (by decide) (by decide) (by decide)⟩

/-- C1 as literally stated is false: a key equal to the header token is
written but never read back, so with `col = "c"`, `existing = ∅`,
`K1 = K2 = ["c"]` the second call returns `1` where the claim predicts
`|K2 \ (K1 ∪ existing)| = 0`, and `"c"` is missing from the keys on disk
where the claim predicts `existing ∪ K1 ∪ K2 = {"c"}`. -/
theorem dedup_correctness_cx :
    (append ["c"] (append ["c"] (some ["c", "e"]) "c" true).file "c" true).count
        = 1
      ∧ ((["c"] : List String).toFinset
          \ ((["c"] : List String).toFinset
              ∪ (load_existing (some ["c", "e"]) "c").toFinset)).card = 0
      ∧ "c" ∉ load_existing
          (append ["c"] (append ["c"] (some ["c", "e"]) "c" true).file
            "c" true).file "c" := by
  decide

/-- C2 (amended): for well-formed keys (strip-invariant, non-empty, distinct
from the strip-invariant header token), appending the same candidate list
twice returns `0` from the second call and leaves the file exactly as it was
after the first call. -/
theorem idempotent_append (col : String) (hcol : pyStrip col = col)
    (K : List String) (file : Option (List String))
    (hK : ∀ k ∈ K, goodKey col k) :
    (append K (append K file col true).file col true).count = 0
      ∧ (append K (append K file col true).file col true).file
          = (append K file col true).file := by
  have hnil : newItems K (append K file col true).file col = [] := by
    unfold newItems
    rw [List.filter_eq_nil_iff]
    intro a ha
    simp only [decide_eq_true_eq, not_not]
    rw [mem_load_existing_append col hcol hK]
    exact Or.inr ha
  constructor
  · rw [append_count, hnil]
    rfl
  · exact append_file_of_nil _ _ _ hnil

/-- Closed instance of `idempotent_append`. -/
theorem idempotent_append_witness :
    ((pyStrip "c" = "c") ∧ (∀ k ∈ ["u1", "u2"], goodKey "c" k))
      ∧ (append ["u1", "u2"]
          (append ["u1", "u2"] none "c" true).file "c" true).count = 0
      ∧ (append ["u1", "u2"]
            (append ["u1", "u2"] none "c" true).file "c" true).file
          = (append ["u1", "u2"] none "c" true).file :=
  ⟨⟨by decide, by decide⟩,
    idempotent_append "c" (by decide) ["u1", "u2"] none (by decide)⟩

/-- C2 as literally stated is false: with a candidate equal to the header
token (`K = ["c"]`, header `"c"`, empty store) the second call returns `1`,
not `0`, and the file grows again. -/
theorem idempotent_append_cx :
    (append ["c"] (append ["c"] none "c" true).file "c" true).count = 1
      ∧ (append ["c"] (append ["c"] none "c" true).file "c" true).file
          ≠ (append ["c"] none "c" true).file := by
  decide

/-- C3 (amended): appending a set of well-formed keys to a store whose file
does not yet exist and then loading returns exactly that set. -/
theorem load_append_round_trip (col : String) (hcol : pyStrip col = col)
    (S : List String) (hS : ∀ k ∈ S, goodKey col k) :
    (load_existing (append S none col true).file col).toFinset
      = S.toFinset := by
  ext x
  simp only [List.mem_toFinset]
  rw [mem_load_existing_append col hcol hS]
  show (x ∈ ([] : List String) ∨ x ∈ S) ↔ x ∈ S
  simp

/-- Closed instance of `load_append_round_trip`. -/
theorem load_append_round_trip_witness :
    ((pyStrip "channel_url" = "channel_url")
        ∧ (∀ k ∈ ["u1", "u2"], goodKey "channel_url" k))
      ∧ (load_existing
            (append ["u1", "u2"] none "channel_url" true).file
            "channel_url").toFinset
          = (["u1", "u2"] : List String).toFinset :=
  ⟨⟨by decide, by decide⟩,
    load_append_round_trip "channel_url" (by decide) ["u1", "u2"] (by decide)⟩

/-- C3 as literally stated is false: appending the set `{"v"}` to an empty
store whose header token is also `"v"` loads back the empty set, not
`{"v"}`. -/
theorem load_append_round_trip_cx :
    (load_existing (append ["v"] none "v" true).file "v").toFinset
      ≠ (["v"] : List String).toFinset := by
  decide

/-- C10: `append` does not deduplicate inside one call: a not-yet-persisted
key submitted twice in one candidate list is written as two separate lines
and counted twice in the returned count (which therefore exceeds the single
genuinely-new distinct key). -/
theorem append_no_intra_call_dedup (k : String) (file : Option (List String))
    (col : String) (h : k ∉ load_existing file col) :
    (append [k, k] file col true).count = 2
      ∧ (append [k, k] file col true).file
          = some ((file.getD [])
              ++ (match file with | none => [col] | some _ => []) ++ [k, k]) := by
  have hnew : newItems [k, k] file col = [k, k] := by
    unfold newItems
    simp [h]
  constructor
  · rw [append_count, hnew]
    rfl
  · cases file with
    | none =>
        rw [append_file_none [k, k] col
          (by rw [hnew]; exact List.cons_ne_nil _ _)]
        rw [hnew]
        rfl
    | some l =>
        rw [append_file_some [k, k] l col
          (by rw [hnew]; exact List.cons_ne_nil _ _)]
        rw [hnew]
        show some (l ++ [k, k]) = some ((l ++ []) ++ [k, k])
        rw [List.append_nil]

/-- Closed instance of `append_no_intra_call_dedup`. -/
theorem append_no_intra_call_dedup_witness :
    ("u1" ∉ load_existing (some ["channel_url"]) "channel_url")
      ∧ (append ["u1", "u1"] (some ["channel_url"]) "channel_url" true).count = 2
      ∧ (append ["u1", "u1"] (some ["channel_url"]) "channel_url" true).file
          = some (["channel_url"] ++ ([] : List String) ++ ["u1", "u1"]) :=
  ⟨by decide,
    append_no_intra_call_dedup "u1" (some ["channel_url"]) "channel_url"
      (by decide)⟩

end OutputManager

namespace ChannelExtractor

/-- One DOM result element, modelled by the string values the `safe_get_*`
helpers of `BaseExtractor` produce for it (src/extractors/base.py lines
47-66): each field is `""` when the sub-element is missing or its extraction
throws. -/
structure RawItem where
  channel_url : String
  channel_name : String
  subscribers : String
  video_count : String
  description : String
deriving DecidableEq

/-- The record dictionary built by `_extract_channel_data`
(src/extractors/channel.py lines 66-84). -/
structure ChannelRecord where
  channel_name : String
  channel_url : String
  subscribers : String
  video_count : String
  description : String
deriving DecidableEq

/-- The URL rewrite in `_extract_channel_data` (src/extractors/channel.py
lines 63-64): `if channel_url and not channel_url.startswith("http"):
channel_url = f"https://www.youtube.com{channel_url}"`. -/
def normalize_channel_url (u : String) : String :=
  if u ≠ "" ∧ ¬ pyStartsWith u "http" then "https://www.youtube.com" ++ u
  else u

/-- `ChannelExtractor._extract_channel_data` (src/extractors/channel.py
lines 55-84). -/
def extract_channel_data (item : RawItem) : ChannelRecord :=
  { channel_name := item.channel_name
    channel_url := normalize_channel_url item.channel_url
    subscribers := item.subscribers
    video_count := item.video_count
    description := item.description }

/-- The record-building and filtering stage of `ChannelExtractor.extract`
(src/extractors/channel.py lines 46-53): every present result element is
converted by `_extract_channel_data` and records with an empty
`channel_url` are dropped (`if channel.get("channel_url")`). -/
def extract (items : List RawItem) : List ChannelRecord :=
  (items.map extract_channel_data).filter
    (fun channel => decide (channel.channel_url ≠ ""))

/-! ### Claims about the extraction unit -/

/-- C6: every record surfaced by `ChannelExtractor.extract` has a non-empty
`channel_url`; a record whose canonical-URL field is empty never appears in
the output. -/
theorem extract_no_empty_url (items : List RawItem) (r : ChannelRecord)
    (hr : r ∈ extract items) : r.channel_url ≠ "" := by
  unfold extract at hr
  have h := List.of_mem_filter hr
  simpa using h

/-- Closed instance of `extract_no_empty_url`. -/
theorem extract_no_empty_url_witness :
    (extract_channel_data ⟨"/channel/UC123", "n", "s", "v", "d"⟩
        ∈ extract [⟨"/channel/UC123", "n", "s", "v", "d"⟩])
      ∧ (extract_channel_data
          ⟨"/channel/UC123", "n", "s", "v", "d"⟩).channel_url ≠ "" :=
  ⟨by decide,
    extract_no_empty_url [⟨"/channel/UC123", "n", "s", "v", "d"⟩] _ (by decide)⟩

/-- C7 (amended): a non-empty raw URL not starting with the literal prefix
`"http"` is rewritten to `https://www.youtube.com` + raw (in particular
`/channel/UC123` becomes `https://www.youtube.com/channel/UC123`), and a URL
starting with `"http"` is left unchanged.  The source tests the prefix
`"http"`, not the presence of a scheme. -/
theorem relative_url_normalization (item : RawItem)
    (h : item.channel_url ≠ "") :
    (¬ pyStartsWith item.channel_url "http" →
        (extract_channel_data item).channel_url
          = "https://www.youtube.com" ++ item.channel_url)
      ∧ (pyStartsWith item.channel_url "http" →
        (extract_channel_data item).channel_url = item.channel_url) := by
  constructor
  · intro hs
    show normalize_channel_url item.channel_url = _
    unfold normalize_channel_url
    rw [if_pos ⟨h, hs⟩]
  · intro hs
    show normalize_channel_url item.channel_url = _
    unfold normalize_channel_url
    rw [if_neg (fun hc => hc.2 hs)]

/-- Closed instance of `relative_url_normalization` on `/channel/UC123`. -/
theorem relative_url_normalization_witness :
    (("/channel/UC123" : String) ≠ ""
        ∧ ¬ pyStartsWith "/channel/UC123" "http")
      ∧ (extract_channel_data ⟨"/channel/UC123", "", "", "", ""⟩).channel_url
        = "https://www.youtube.com/channel/UC123" :=
  ⟨⟨by decide, by decide⟩,
    (relative_url_normalization ⟨"/channel/UC123", "", "", "", ""⟩
        (by decide)).1 (by decide)⟩

/-- C7 as literally stated is false: `ftp://example.com/a` starts with the
scheme `ftp:`, so the claim says it is left unchanged, but the code only
tests for the literal prefix `"http"` and rewrites it. -/
theorem relative_url_normalization_cx :
    (extract_channel_data ⟨"ftp://example.com/a", "", "", "", ""⟩).channel_url
        = "https://www.youtube.comftp://example.com/a"
      ∧ (extract_channel_data
          ⟨"ftp://example.com/a", "", "", "", ""⟩).channel_url
        ≠ "ftp://example.com/a" := by
  decide

end ChannelExtractor

namespace Batch

/-- `BatchRunner.COLUMN_NAME` (src/batch.py line 23). -/
def COLUMN_NAME : String := "channel_url"

/-- A configuration source as seen by `ConfigLoader.load`
(src/config_loader.py lines 9-17): the YAML file may be missing, and when
present its `type` entry (when present) selects the extractor. -/
structure ConfigSpec where
  present : Bool
  type_field : Option String
deriving DecidableEq

/-- `ConfigLoader.load` (src/config_loader.py lines 9-17): raises
`FileNotFoundError` when the config file is missing (message abridged from
the Python f-string). -/
def config_loader_load (cfg : ConfigSpec) : Except String ConfigSpec :=
  if cfg.present then .ok cfg else .error "Config file not found"

/-- The extractor registry `YouTubeScraper.EXTRACTORS`
(src/scrapers/youtube.py lines 20-22). -/
def EXTRACTORS : List String := ["channel"]

/-- `YouTubeScraper._get_extractor_class` (src/scrapers/youtube.py lines
33-41): looks up `config.get("type", "channel")` in the registry and raises
`ValueError` on an unknown type. -/
def get_extractor_class (cfg : ConfigSpec) : Except String String :=
  let extractor_type := cfg.type_field.getD "channel"
  if EXTRACTORS.contains extractor_type then .ok extractor_type
  else .error ("Unknown extractor type: " ++ extractor_type)

/-- `YouTubeScraper.__init__` (src/scrapers/youtube.py lines 24-31 with
`BaseScraper.__init__`, src/scrapers/base.py lines 22-33): loads the config,
then resolves the extractor class; the first raised error propagates. -/
def scraper_init (cfg : ConfigSpec) : Except String String :=
  (config_loader_load cfg).bind get_extractor_class

/-- What one `scraper.scrape(keyword)` call does, abstracting the browser
session: it either returns the extracted records or raises. -/
inductive ScrapeOutcome where
  | ok (results : List ChannelExtractor.ChannelRecord)
  | raise (msg : String)
deriving DecidableEq

/-- The shared mutable state of a batch run: the master key file (the
`OutputManager` store for `all_channels.csv`) and the in-memory
`collected_urls` set. -/
structure RunState where
  file : Option (List String)
  collected_urls : Finset String
deriving DecidableEq

/-- The `(keyword, new_count, error)` tuple returned by `_scrape_keyword`. -/
structure TaskReport where
  keyword : String
  new_count : Nat
  error : Option String
deriving DecidableEq

/-- `BatchRunner._scrape_keyword` (src/batch.py lines 33-56): construct the
scraper, scrape, push records with a non-empty `channel_url` through
`OutputManager.append`, update the in-memory set, and return the new count;
any exception (scraper construction included) is caught and reported as a
zero-contribution `(keyword, 0, str(e))` result. -/
def scrape_keyword (kw : String) (cfg : ConfigSpec) (outcome : ScrapeOutcome)
    (st : RunState) : TaskReport × RunState :=
  match scraper_init cfg with
  | .error e => (⟨kw, 0, some e⟩, st)
  | .ok _ =>
    match outcome with
    | .raise e => (⟨kw, 0, some e⟩, st)
    | .ok results =>
      if results.isEmpty then (⟨kw, 0, none⟩, st)
      else
        let urls := (results.filter
            (fun r => decide (r.channel_url ≠ ""))).map
          (fun r => r.channel_url)
        let r := OutputManager.append urls st.file COLUMN_NAME true
        (⟨kw, r.count, none⟩, ⟨r.file, st.collected_urls ∪ urls.toFinset⟩)

/-- One observed completion event of the worker pool: the keyword and what
its scrape did.  Per §5 of the spec, the completion order is the only order
that matters; `BatchRunner.run` is modelled over that stream. -/
abbrev Completion := String × ScrapeOutcome

/-- The result-processing loop of `BatchRunner.run` (src/batch.py lines
85-96): each completed task's report is processed in completion order; as
soon as `len(collected_urls) >= target`, the loop cancels the outstanding
futures and breaks, so the remaining completions are never processed. -/
def run_loop (cfg : ConfigSpec) (target : Nat) :
    RunState → List Completion → RunState × List TaskReport
  | st, [] => (st, [])
  | st, c :: rest =>
    let pr := scrape_keyword c.1 cfg c.2 st
    if target ≤ pr.2.collected_urls.card then (pr.2, [pr.1])
    else
      let res := run_loop cfg target pr.2 rest
      (res.1, pr.1 :: res.2)

/-- The final summary logged by `BatchRunner.run` (src/batch.py lines
98-100). -/
structure Summary where
  total : Nat
  saved_to : String
deriving DecidableEq

/-- `BatchRunner.run` (src/batch.py lines 58-100): process the completion
stream, then report the final total and save location. -/
def run (cfg : ConfigSpec) (target : Nat) (init : RunState)
    (completions : List Completion) :
    RunState × List TaskReport × Summary :=
  let res := run_loop cfg target init completions
  (res.1, res.2, ⟨res.1.collected_urls.card, "output/all_channels.csv"⟩)

/-- State evolution ignoring the early-stop check: the per-completion state
update folded over a prefix of the completion stream. -/
def fold_state (cfg : ConfigSpec) (st : RunState) (cs : List Completion) :
    RunState :=
  cs.foldl (fun s c => (scrape_keyword c.1 cfg c.2 s).2) st

theorem fold_state_cons (cfg : ConfigSpec) (st : RunState) (c : Completion)
    (cs : List Completion) :
    fold_state cfg st (c :: cs)
      = fold_state cfg (scrape_keyword c.1 cfg c.2 st).2 cs := rfl

/-! ### Claims about the orchestrator -/

/-- C4: if the running deduplicated total passes the target after some
prefix of the completion stream (of length `k`, before all tasks have
completed), the run-loop's final total is at least the target and it
processes at most `k` results — the remaining completions are dropped
(futures cancelled), so the loop never waits on them.  Termination is
structural: `run_loop` is a total function. -/
theorem run_early_stop (cfg : ConfigSpec) (target : Nat) (init : RunState)
    (completions : List Completion) (k : Nat) (hk0 : 0 < k)
    (hklen : k ≤ completions.length)
    (hreach : target
      ≤ (fold_state cfg init (completions.take k)).collected_urls.card) :
    target ≤ (run_loop cfg target init completions).1.collected_urls.card
      ∧ (run_loop cfg target init completions).2.length ≤ k := by
  induction completions generalizing init k with
  | nil =>
      exfalso
      simp only [List.length_nil, Nat.le_zero] at hklen
      omega
  | cons c rest ih =>
      by_cases hstop :
          target ≤ (scrape_keyword c.1 cfg c.2 init).2.collected_urls.card
      · simp only [run_loop, if_pos hstop]
        exact ⟨hstop, hk0⟩
      · simp only [run_loop, if_neg hstop]
        cases k with
        | zero => omega
        | succ n =>
            rw [List.take_succ_cons, fold_state_cons] at hreach
            have hn : n ≠ 0 := by
              intro h0
              subst h0
              exact hstop hreach
            have hres := ih (scrape_keyword c.1 cfg c.2 init).2 n
              (Nat.pos_of_ne_zero hn)
              (by simpa using Nat.lt_succ_iff.mp (Nat.lt_of_lt_of_le
                (Nat.lt_succ_self n) hklen)) hreach
            exact ⟨hres.1, by
              simpa using Nat.succ_le_succ hres.2⟩

/-- Closed instance of `run_early_stop`: two tasks, target 1, the first
completion already reaches the target, exactly one result is processed. -/
theorem run_early_stop_witness :
    ((0 : Nat) < 1 ∧ 1 ≤ ([(("a", ScrapeOutcome.ok
          [⟨"n", "u1", "s", "v", "d"⟩]) : Completion),
        ("b", ScrapeOutcome.ok [⟨"n", "u2", "s", "v", "d"⟩])]).length
      ∧ 1 ≤ (fold_state ⟨true, none⟩ ⟨none, ∅⟩
          ([(("a", ScrapeOutcome.ok [⟨"n", "u1", "s", "v", "d"⟩]) : Completion),
            ("b", ScrapeOutcome.ok
              [⟨"n", "u2", "s", "v", "d"⟩])].take 1)).collected_urls.card)
      ∧ 1 ≤ (run_loop ⟨true, none⟩ 1 ⟨none, ∅⟩
          [(("a", ScrapeOutcome.ok [⟨"n", "u1", "s", "v", "d"⟩]) : Completion),
            ("b", ScrapeOutcome.ok
              [⟨"n", "u2", "s", "v", "d"⟩])]).1.collected_urls.card
      ∧ (run_loop ⟨true, none⟩ 1 ⟨none, ∅⟩
          [(("a", ScrapeOutcome.ok [⟨"n", "u1", "s", "v", "d"⟩]) : Completion),
            ("b", ScrapeOutcome.ok
              [⟨"n", "u2", "s", "v", "d"⟩])]).2.length ≤ 1 :=
  ⟨⟨by decide, by decide, by decide⟩,
    run_early_stop ⟨true, none⟩ 1 ⟨none, ∅⟩
      [(("a", ScrapeOutcome.ok [⟨"n", "u1", "s", "v", "d"⟩]) : Completion),
        ("b", ScrapeOutcome.ok [⟨"n", "u2", "s", "v", "d"⟩])] 1
      (by decide) (by decide) (by decide)⟩

/-- C5: a keyword whose extraction raises is caught at the task boundary:
`_scrape_keyword` returns `(keyword, 0, error)` and leaves the store state
untouched, the remaining completion stream is processed exactly as without
the failing task (their results are still merged), and the run terminates
with its final summary. -/
theorem failure_isolation (cfg : ConfigSpec) (t : String)
    (hcfg : scraper_init cfg = .ok t) (kw msg : String) (st : RunState)
    (target : Nat) (htarget : st.collected_urls.card < target)
    (rest : List Completion) :
    scrape_keyword kw cfg (.raise msg) st = (⟨kw, 0, some msg⟩, st)
      ∧ run_loop cfg target st ((kw, .raise msg) :: rest)
          = ((run_loop cfg target st rest).1,
              ⟨kw, 0, some msg⟩ :: (run_loop cfg target st rest).2)
      ∧ (run cfg target st ((kw, .raise msg) :: rest)).2.2
          = ⟨(run_loop cfg target st rest).1.collected_urls.card,
              "output/all_channels.csv"⟩ := by
  have h1 : scrape_keyword kw cfg (ScrapeOutcome.raise msg) st
      = (⟨kw, 0, some msg⟩, st) := by
    unfold scrape_keyword
    rw [hcfg]
  have h2 : run_loop cfg target st ((kw, ScrapeOutcome.raise msg) :: rest)
      = ((run_loop cfg target st rest).1,
          ⟨kw, 0, some msg⟩ :: (run_loop cfg target st rest).2) := by
    simp only [run_loop, h1]
    rw [if_neg (not_le.mpr htarget)]
  refine ⟨h1, h2, ?_⟩
  simp only [run, h2]

/-- Closed instance of `failure_isolation`: task "a" raises, task "b"'s two
URLs are still merged and the summary reports them. -/
theorem failure_isolation_witness :
    (scraper_init ⟨true, none⟩ = .ok "channel"
        ∧ (⟨none, ∅⟩ : RunState).collected_urls.card < 5)
      ∧ scrape_keyword "a" ⟨true, none⟩ (.raise "boom") ⟨none, ∅⟩
          = (⟨"a", 0, some "boom"⟩, ⟨none, ∅⟩)
      ∧ run_loop ⟨true, none⟩ 5 ⟨none, ∅⟩
            [("a", .raise "boom"),
              ("b", .ok [⟨"n", "u1", "s", "v", "d"⟩, ⟨"n", "u2", "s", "v", "d"⟩])]
          = ((run_loop ⟨true, none⟩ 5 ⟨none, ∅⟩
                [("b", .ok [⟨"n", "u1", "s", "v", "d"⟩,
                    ⟨"n", "u2", "s", "v", "d"⟩])]).1,
              ⟨"a", 0, some "boom"⟩ :: (run_loop ⟨true, none⟩ 5 ⟨none, ∅⟩
                [("b", .ok [⟨"n", "u1", "s", "v", "d"⟩,
                    ⟨"n", "u2", "s", "v", "d"⟩])]).2)
      ∧ (run ⟨true, none⟩ 5 ⟨none, ∅⟩
            [("a", .raise "boom"),
              ("b", .ok [⟨"n", "u1", "s", "v", "d"⟩,
                  ⟨"n", "u2", "s", "v", "d"⟩])]).2.2
          = ⟨(run_loop ⟨true, none⟩ 5 ⟨none, ∅⟩
                [("b", .ok [⟨"n", "u1", "s", "v", "d"⟩,
                    ⟨"n", "u2", "s", "v", "d"⟩])]).1.collected_urls.card,
              "output/all_channels.csv"⟩ :=
  ⟨⟨rfl, by decide⟩,
    failure_isolation ⟨true, none⟩ "channel" rfl "a" "boom" ⟨none, ∅⟩ 5
      (by decide)
      [("b", .ok [⟨"n", "u1", "s", "v", "d"⟩, ⟨"n", "u2", "s", "v", "d"⟩])]⟩

/-- C8 (amended): an invalid configuration (missing config file or unknown
extraction type) is not fatal at startup: the batch run begins, every
per-term task executes, fails at scraper construction, is caught at the
task boundary and reports the configuration error with zero contribution;
the store state is never touched and the run completes normally. -/
theorem config_failure_per_task (cfg : ConfigSpec) (e : String)
    (herr : scraper_init cfg = .error e) (target : Nat) (init : RunState)
    (htarget : init.collected_urls.card < target)
    (completions : List Completion) :
    run_loop cfg target init completions
      = (init, completions.map (fun c => ⟨c.1, 0, some e⟩)) := by
  induction completions with
  | nil => rfl
  | cons c rest ih =>
      have h1 : scrape_keyword c.1 cfg c.2 init = (⟨c.1, 0, some e⟩, init) := by
        unfold scrape_keyword
        rw [herr]
      simp only [run_loop, h1]
      rw [if_neg (not_le.mpr htarget)]
      rw [ih]
      rfl

/-- Closed instance of `config_failure_per_task` with an unknown extraction
type: both tasks run and report the configuration error. -/
theorem config_failure_per_task_witness :
    (scraper_init ⟨true, some "video"⟩
          = .error "Unknown extractor type: video"
        ∧ (⟨none, ∅⟩ : RunState).collected_urls.card < 3)
      ∧ run_loop ⟨true, some "video"⟩ 3 ⟨none, ∅⟩
            [("a", .ok []), ("b", .raise "x")]
          = (⟨none, ∅⟩,
              [⟨"a", 0, some "Unknown extractor type: video"⟩,
                ⟨"b", 0, some "Unknown extractor type: video"⟩]) :=
  ⟨⟨rfl, by decide⟩,
    config_failure_per_task ⟨true, some "video"⟩
      "Unknown extractor type: video" rfl 3 ⟨none, ∅⟩ (by decide)
      [("a", .ok []), ("b", .raise "x")]⟩

/-- C8 as literally stated is false: with a missing config file the run
still begins and the per-term task for keyword "a" executes — it produces a
task report (caught as a per-task error) instead of no task running at
all. -/
theorem config_failure_per_task_cx :
    (run_loop ⟨false, none⟩ 10 ⟨none, ∅⟩ [("a", ScrapeOutcome.ok [])]).2
        = [⟨"a", 0, some "Config file not found"⟩]
      ∧ (run_loop ⟨false, none⟩ 10 ⟨none, ∅⟩
          [("a", ScrapeOutcome.ok [])]).2.length ≠ 0 := by
  decide

end Batch

end YoutubeChannels
